import Mathlib

/-!
Verification development for the utec-py client library.

The Python sources are shallowly embedded as pure Lean functions:
instants are integers counted in seconds, `datetime.now()` becomes an
explicit `now` argument, network responses become explicit records, and
raised exceptions become `Except` errors carrying the data the Python
code interpolates into the exception message.
-/

namespace UtecPy

/-! ### Token state and validation (src/authenticator.py)

`AuthenticationHandler` stores `access_token` and `token_expiry`
(both initialized to `None`).  `validate_token` checks, in order:
`access_token is not None`, `token_expiry is not None`, and
`datetime.now() < token_expiry - timedelta(minutes=5)`.
-/

structure TokenState where
  access_token : Option String
  token_expiry : Option Int
deriving Repr, DecidableEq

/-- The fixed safety margin `timedelta(minutes=5)`, in seconds. -/
def fiveMinutes : Int := 300

/-- Embedding of `AuthenticationHandler.validate_token`, with the current
time passed explicitly. -/
def validate_token (now : Int) (st : TokenState) : Bool :=
  match st.access_token, st.token_expiry with
  | some _, some expiry => decide (now < expiry - fiveMinutes)
  | _, _ => false

/-- Claim C1: `validate_token` returns true iff an access token is present,
an expiry instant is present, and the current time is strictly before the
expiry minus the fixed 5-minute margin; at exactly expiry minus 5 minutes
it returns false, and it returns false whenever the access token is absent. -/
theorem validate_token_correct :
    (∀ (now : Int) (st : TokenState),
      validate_token now st = true ↔
        ∃ tok e, st.access_token = some tok ∧ st.token_expiry = some e ∧
          now < e - fiveMinutes) ∧
    (∀ (tok : String) (e : Int),
      validate_token (e - fiveMinutes)
        { access_token := some tok, token_expiry := some e } = false) ∧
    (∀ (now : Int) (te : Option Int),
      validate_token now { access_token := none, token_expiry := te } = false) := by
  refine ⟨?_, ?_, ?_⟩
  · intro now st
    cases hat : st.access_token with
    | none => simp [validate_token, hat]
    | some tok =>
      cases hte : st.token_expiry with
      | none => simp [validate_token, hat, hte]
      | some e => simp [validate_token, hat, hte]
  · intro tok e
    simp [validate_token]
  · intro now te
    cases te <;> simp [validate_token]

/-- Concrete instance of the token-validity check: a token expiring at
instant 10000 is valid at instant 0. -/
theorem validate_token_correct_witness :
    validate_token 0 { access_token := some "tok", token_expiry := some 10000 } = true :=
  (validate_token_correct.1 0 _).mpr ⟨"tok", 10000, rfl, rfl, by norm_num [fiveMinutes]⟩

/-! ### OAuth callback loop and token exchange (src/authenticator.py)

`AuthCallback` stores the `authorization_code` and `state` query
parameters of the last redirect it received (`None` before any redirect).
`_start_auth_server` polls that callback state 60 times, one second apart:
if `auth_code` is truthy it raises `AuthenticationError("State mismatch")`
when the recorded state differs from the generated one and otherwise
returns the code; after 60 polls it raises
`AuthenticationError("Authorization timeout")`.
-/

/-- Snapshot of the `AuthCallback` object as seen by one poll iteration. -/
structure CallbackState where
  auth_code : Option String
  state : Option String
deriving Repr, DecidableEq

/-- Python truthiness of an optional string: `None` and the empty string
are falsy. -/
def pyTruthy : Option String → Bool
  | none => false
  | some s => s != ""

/-- The exceptions `AuthenticationHandler` raises, with the data that is
interpolated into the `AuthenticationError` message. -/
inductive AuthErr where
  | stateMismatch
  | timeout
  | tokenRequestFailed (body : String)
  | failedToGetCode
deriving Repr, DecidableEq

/-- The message text each `AuthenticationError` carries in the source. -/
def AuthErr.message : AuthErr → String
  | .stateMismatch => "State mismatch"
  | .timeout => "Authorization timeout"
  | .tokenRequestFailed body => "Token request failed: " ++ body
  | .failedToGetCode => "Failed to get authorization code"

/-- The poll loop of `_start_auth_server`: `snap i` is the callback state
observed by the i-th poll; `fuel` counts the remaining iterations of
`for _ in range(60)`. -/
def authLoop (snap : Nat → CallbackState) (expected : String) :
    Nat → Nat → Except AuthErr String
  | _, 0 => .error .timeout
  | i, fuel + 1 =>
    let c := snap i
    if pyTruthy c.auth_code then
      if c.state ≠ some expected then .error .stateMismatch
      else .ok (c.auth_code.getD "")
    else authLoop snap expected (i + 1) fuel

/-- Embedding of `AuthenticationHandler._start_auth_server` (its poll
loop; server startup and `webbrowser.open` have no effect on the result). -/
def start_auth_server (snap : Nat → CallbackState) (expected : String) :
    Except AuthErr String :=
  authLoop snap expected 0 60

/-- Embedding of `AuthenticationHandler._get_authorization_code`: run the
callback server loop, then raise if the returned code is falsy. -/
def get_authorization_code (snap : Nat → CallbackState) (expected : String) :
    Except AuthErr String :=
  match start_auth_server snap expected with
  | .error e => .error e
  | .ok code => if code = "" then .error .failedToGetCode else .ok code

/-- The decoded JSON body of the token endpoint response together with its
transport status and raw text, as `_get_access_token` consumes it via
`data.get("access_token")` and `data.get("expires_in", 7200)`. -/
structure TokenResponse where
  status : Nat
  text : String
  access_token : Option String
  expires_in : Option Int
deriving Repr, DecidableEq

/-- The outbound request `_get_access_token` builds: `session.get` on
`f"{DEFAULT_AUTH_BASE_URL}/token"` with the `params` dict. -/
structure TokenRequest where
  method : String
  url : String
  params : List (String × String)
deriving Repr, DecidableEq

def DEFAULT_AUTH_BASE_URL : String := "https://oauth.u-tec.com"

/-- The request `AuthenticationHandler._get_access_token` sends to the
token endpoint (an HTTP GET whose `params` dict becomes query
parameters). -/
def tokenRequest (client_id auth_code : String) : TokenRequest :=
  { method := "GET"
  , url := DEFAULT_AUTH_BASE_URL ++ "/token"
  , params := [("grant_type", "authorization_code"),
               ("client_id", client_id),
               ("code", auth_code)] }

/-- Embedding of the response handling of
`AuthenticationHandler._get_access_token`: on a non-200 status raise
`AuthenticationError` carrying the body text; otherwise store
`access_token` and `now + expires_in` (defaulting `expires_in` to 7200)
and return the stored token. -/
def get_access_token (resp : TokenResponse) (now : Int) (st : TokenState) :
    Except AuthErr (Option String) × TokenState :=
  if resp.status ≠ 200 then (.error (.tokenRequestFailed resp.text), st)
  else
    let tok := resp.access_token
    let expires_in := resp.expires_in.getD 7200
    (.ok tok, { access_token := tok, token_expiry := some (now + expires_in) })

/-- Embedding of `AuthenticationHandler.authenticate`: obtain the
authorization code, then exchange it; an error while obtaining the code
propagates and leaves the token state untouched. -/
def authenticate (snap : Nat → CallbackState) (expected : String)
    (resp : TokenResponse) (now : Int) (st : TokenState) :
    Except AuthErr (Option String) × TokenState :=
  match get_authorization_code snap expected with
  | .error e => (.error e, st)
  | .ok _ => get_access_token resp now st

/-- True exactly on the error branch of an `Except`. -/
def isError : Except AuthErr (Option String) → Bool
  | .error _ => true
  | .ok _ => false

/-- If every poll that sees a truthy code sees a state different from the
generated one, the poll loop raises (state mismatch or, if no truthy code
ever shows up, timeout). -/
theorem authLoop_error_of_mismatch (snap : Nat → CallbackState) (expected : String) :
    ∀ (fuel i : Nat),
      (∀ j, i ≤ j → j < i + fuel →
        pyTruthy (snap j).auth_code = true → (snap j).state ≠ some expected) →
      ∃ e, authLoop snap expected i fuel = .error e := by
  intro fuel
  induction fuel with
  | zero => intro i _; exact ⟨.timeout, rfl⟩
  | succ n ih =>
    intro i h
    by_cases htr : pyTruthy (snap i).auth_code = true
    · have hne : (snap i).state ≠ some expected :=
        h i le_rfl (by omega) htr
      exact ⟨.stateMismatch, by simp [authLoop, htr, hne]⟩
    · have hfalse : pyTruthy (snap i).auth_code = false := by
        simpa using htr
      obtain ⟨e, he⟩ := ih (i + 1) (fun j hj1 hj2 => h j (by omega) (by omega))
      exact ⟨e, by simp [authLoop, hfalse, he]⟩

/-- Claim C3: whenever the callback only ever records a state different
from the generated one, `authenticate` raises an `AuthenticationError`
(it never returns a token) and the stored token state is unchanged. -/
theorem authenticate_state_mismatch (snap : Nat → CallbackState) (expected : String)
    (resp : TokenResponse) (now : Int) (st : TokenState)
    (h : ∀ j, j < 60 →
      pyTruthy (snap j).auth_code = true → (snap j).state ≠ some expected) :
    isError (authenticate snap expected resp now st).1 = true ∧
      (authenticate snap expected resp now st).2 = st := by
  obtain ⟨e, he⟩ :=
    authLoop_error_of_mismatch snap expected 60 0
      (fun j _ hj2 => h j (by omega))
  have hsrv : start_auth_server snap expected = .error e := he
  have hcode : get_authorization_code snap expected = .error e := by
    simp [get_authorization_code, hsrv]
  constructor
  · simp [authenticate, hcode, isError]
  · simp [authenticate, hcode]

/-- Concrete instance of the state-mismatch behavior: a redirect carrying
code "c" and state "evil" against generated state "good" yields an error
and leaves the empty token state empty. -/
theorem authenticate_state_mismatch_witness :
    isError (authenticate (fun _ => { auth_code := some "c", state := some "evil" })
      "good" { status := 200, text := "", access_token := some "t", expires_in := some 3600 }
      0 { access_token := none, token_expiry := none }).1 = true ∧
    (authenticate (fun _ => { auth_code := some "c", state := some "evil" })
      "good" { status := 200, text := "", access_token := some "t", expires_in := some 3600 }
      0 { access_token := none, token_expiry := none }).2 =
      { access_token := none, token_expiry := none } :=
  authenticate_state_mismatch _ "good" _ 0 _ (by intro j _ _; simp)

/-- If no poll ever sees a truthy code, the loop exhausts its 60 polls and
raises the timeout error. -/
theorem authLoop_timeout (snap : Nat → CallbackState) (expected : String) :
    ∀ (fuel i : Nat),
      (∀ j, i ≤ j → j < i + fuel → pyTruthy (snap j).auth_code = false) →
      authLoop snap expected i fuel = .error .timeout := by
  intro fuel
  induction fuel with
  | zero => intro i _; rfl
  | succ n ih =>
    intro i h
    have hfalse : pyTruthy (snap i).auth_code = false := h i le_rfl (by omega)
    have := ih (i + 1) (fun j hj1 hj2 => h j (by omega) (by omega))
    simp [authLoop, hfalse, this]

/-- Claim C4: if no redirect is ever received (the callback code stays
falsy for all 60 polls), the bounded loop terminates with the timeout
`AuthenticationError`, whose message is "Authorization timeout" (so it
contains "timeout"), and the token state is exactly what it was before. -/
theorem authenticate_timeout (snap : Nat → CallbackState) (expected : String)
    (resp : TokenResponse) (now : Int) (st : TokenState)
    (h : ∀ j, j < 60 → pyTruthy (snap j).auth_code = false) :
    authenticate snap expected resp now st = (.error .timeout, st) ∧
      AuthErr.timeout.message = "Authorization timeout" ∧
      AuthErr.timeout.message = "Authorization " ++ "timeout" := by
  have hsrv : start_auth_server snap expected = .error .timeout :=
    authLoop_timeout snap expected 60 0 (fun j _ hj2 => h j (by omega))
  have hcode : get_authorization_code snap expected = .error .timeout := by
    simp [get_authorization_code, hsrv]
  exact ⟨by simp [authenticate, hcode], rfl, rfl⟩

/-- Concrete instance of the timeout behavior: with a callback that never
records anything, authentication at a non-empty stored token state leaves
that state intact and reports the timeout error. -/
theorem authenticate_timeout_witness :
    authenticate (fun _ => { auth_code := none, state := none }) "good"
      { status := 200, text := "", access_token := some "t", expires_in := some 3600 }
      0 { access_token := some "old", token_expiry := some 42 } =
      (.error .timeout, { access_token := some "old", token_expiry := some 42 }) :=
  (authenticate_timeout _ "good" _ 0 _ (by intro j _; simp [pyTruthy])).1

/-- Claim C8 counterexample: the token-exchange request is not a POST and
carries no `redirect_uri` field, contrary to the claimed request shape. -/
theorem tokenRequest_refutes_post_shape :
    ¬ ((tokenRequest "cid" "abc").method = "POST" ∧
       "redirect_uri" ∈ (tokenRequest "cid" "abc").params.map Prod.fst) := by
  simp [tokenRequest]

/-- Claim C8 (amended): the token-exchange request is a GET to the fixed
token endpoint whose query parameters are exactly grant_type =
authorization_code, client_id and code (no redirect_uri and no client
secret); on a non-200 status the exchange raises `AuthenticationError`
carrying the response body and leaves the token state unchanged. -/
theorem tokenRequest_shape_and_failure (client_id auth_code : String) :
    (tokenRequest client_id auth_code).method = "GET" ∧
    (tokenRequest client_id auth_code).url = "https://oauth.u-tec.com/token" ∧
    (tokenRequest client_id auth_code).params =
      [("grant_type", "authorization_code"),
       ("client_id", client_id),
       ("code", auth_code)] ∧
    (∀ (resp : TokenResponse) (now : Int) (st : TokenState), resp.status ≠ 200 →
      get_access_token resp now st = (.error (.tokenRequestFailed resp.text), st) ∧
        (AuthErr.tokenRequestFailed resp.text).message =
          "Token request failed: " ++ resp.text) := by
  refine ⟨rfl, rfl, rfl, ?_⟩
  intro resp now st hne
  exact ⟨by simp [get_access_token, hne], rfl⟩

/-- Concrete instance of the amended token-exchange claim: a status-400
response with body "Bad request" fails with the error carrying that
body. -/
theorem tokenRequest_shape_and_failure_witness :
    get_access_token
      { status := 400, text := "Bad request", access_token := none, expires_in := none }
      0 { access_token := none, token_expiry := none } =
      (.error (.tokenRequestFailed "Bad request"),
       { access_token := none, token_expiry := none }) :=
  ((tokenRequest_shape_and_failure "cid" "abc").2.2.2 _ 0 _ (by norm_num)).1

/-- Claim C10 counterexample: a 200 response whose JSON body lacks
`expires_in` does not fail; the token is stored with the guessed default
lifetime of 7200 seconds. -/
theorem expires_in_absent_no_error :
    get_access_token
      { status := 200, text := "", access_token := some "tok", expires_in := none }
      0 { access_token := none, token_expiry := none } =
      (.ok (some "tok"),
       { access_token := some "tok", token_expiry := some 7200 }) ∧
    ∀ e, (get_access_token
      { status := 200, text := "", access_token := some "tok", expires_in := none }
      0 { access_token := none, token_expiry := none }).1 ≠ .error e := by
  refine ⟨rfl, ?_⟩
  intro e h
  simp [get_access_token] at h

/-- Claim C10 (amended): on a 200 token response lacking `expires_in`, the
exchange succeeds and stores the token with the default lifetime of 7200
seconds (expiry = now + 7200) instead of raising. -/
theorem get_access_token_default_lifetime (resp : TokenResponse) (now : Int)
    (st : TokenState) (h200 : resp.status = 200) (hno : resp.expires_in = none) :
    get_access_token resp now st =
      (.ok resp.access_token,
       { access_token := resp.access_token, token_expiry := some (now + 7200) }) := by
  simp [get_access_token, h200, hno]

/-- Concrete instance of the default-lifetime behavior at now = 100. -/
theorem get_access_token_default_lifetime_witness :
    get_access_token
      { status := 200, text := "", access_token := some "abc", expires_in := none }
      100 { access_token := none, token_expiry := none } =
      (.ok (some "abc"),
       { access_token := some "abc", token_expiry := some 7300 }) :=
  get_access_token_default_lifetime _ 100 _ rfl rfl

/-! ### API client response classification (src/src/utec_py_LF2b2w/api.py)

`UHomeApi._make_request` checks the transport status in order: 204 yields
the empty dict, 200/201/202 yield the decoded JSON body, anything else
raises `ApiError(status, body_text)`.  JSON values are modelled by a small
JSON type; the response record carries the decoded body directly.
-/

inductive Json where
  | null
  | bool (b : Bool)
  | num (n : Int)
  | str (s : String)
  | arr (elems : List Json)
  | obj (fields : List (String × Json))

/-- Embedding of the `ApiError` exception: it stores the status code and
the raw body text. -/
structure ApiError where
  status_code : Nat
  message : String
deriving Repr, DecidableEq

/-- The message `ApiError.__init__` passes to `Exception`:
`f"API call failed: \x7bstatus_code\x7d - \x7bmessage\x7d"`. -/
def ApiError.fullMessage (e : ApiError) : String :=
  "API call failed: " ++ toString e.status_code ++ " - " ++ e.message

/-- A transport response as `_make_request` consumes it: the status, the
raw body text, and the decoded JSON body. -/
structure HttpResponse where
  status : Nat
  text : String
  json : Json

/-- Embedding of `UHomeApi._make_request` (the dispatch classification of
the packaged client). -/
def make_request (resp : HttpResponse) : Except ApiError Json :=
  if resp.status = 204 then .ok (Json.obj [])
  else if resp.status = 200 ∨ resp.status = 201 ∨ resp.status = 202 then .ok resp.json
  else .error { status_code := resp.status, message := resp.text }

/-- Claim C2: `_make_request` returns the decoded JSON body on 200/201/202,
returns the empty object (never null, never an error) on 204, and raises
`ApiError` carrying the status and raw body on any other status; in
particular a 500 response with body "boom" raises `ApiError` with status
500 whose full message is "API call failed: 500 - boom". -/
theorem make_request_classification :
    (∀ resp : HttpResponse, resp.status = 204 →
      make_request resp = .ok (Json.obj []) ∧
        make_request resp ≠ .ok Json.null ∧
        ∀ e, make_request resp ≠ .error e) ∧
    (∀ resp : HttpResponse,
      resp.status = 200 ∨ resp.status = 201 ∨ resp.status = 202 →
      make_request resp = .ok resp.json) ∧
    (∀ resp : HttpResponse,
      resp.status ≠ 204 → resp.status ≠ 200 → resp.status ≠ 201 → resp.status ≠ 202 →
      make_request resp = .error { status_code := resp.status, message := resp.text }) ∧
    (make_request { status := 500, text := "boom", json := Json.null } =
      .error { status_code := 500, message := "boom" } ∧
     ApiError.fullMessage { status_code := 500, message := "boom" } =
       "API call failed: 500 - " ++ "boom") := by
  refine ⟨?_, ?_, ?_, rfl, rfl⟩
  · intro resp h204
    refine ⟨by simp [make_request, h204], ?_, ?_⟩
    · simp only [make_request, h204, if_pos rfl]
      intro h
      cases h
    · intro e
      simp [make_request, h204]
  · intro resp h2xx
    rcases h2xx with h | h | h <;> simp [make_request, h]
  · intro resp h204 h200 h201 h202
    simp [make_request, h204, h200, h201, h202]

/-- Concrete instances of the dispatch classification: a 204 response is
an empty success and a 500 "boom" response is the corresponding error. -/
theorem make_request_classification_witness :
    make_request { status := 204, text := "", json := Json.null } = .ok (Json.obj []) ∧
    make_request { status := 500, text := "boom", json := Json.null } =
      .error { status_code := 500, message := "boom" } :=
  ⟨(make_request_classification.1 { status := 204, text := "", json := Json.null } rfl).1,
   make_request_classification.2.2.2.1⟩

/-! ### Light setters (src/src/utec_py_LF2b2w/devices/light.py)

Each setter is modelled as the list of commands actually dispatched to
the API client, or the exception raised first.  Capability values come
from `devices/device_const.py`, which `light.py` imports.  Two attribute
slips shape the behavior: `device_const.DeviceCapability` has no member
named COLOR_TEMP, so the in-range branch of `set_color_temp` raises
`AttributeError` while building its command; and
`BaseDevice.send_command` (devices/device.py line 65) dereferences
`self.api`, which is never assigned (`__init__` stores the client only
as `self._api` and no `api` property exists), so every command handed to
`send_command` raises `AttributeError` before any network call.
-/

/-- A command as handed to `BaseDevice.send_command`
(`device_const.DeviceCommand`). -/
structure DeviceCommand where
  capability : String
  name : String
  arguments : Option (List (String × Json))

/-- Exceptions the Light setters can raise before any dispatch. -/
inductive PyError where
  | valueError (msg : String)
  | attributeError (attr : String)
deriving Repr, DecidableEq

/-- `device_const.DeviceCapability.BRIGHTNESS`. -/
def CAP_BRIGHTNESS : String := "st.Brightness"

/-- `device_const.DeviceCapability.COLOR`. -/
def CAP_COLOR : String := "st.Color"

/-- `device_const.BrightnessRange.MIN`. -/
def BrightnessRange.MIN : Int := 0

/-- `device_const.BrightnessRange.MAX`. -/
def BrightnessRange.MAX : Int := 100

/-- `device_const.ColorTempRange.MIN`. -/
def ColorTempRange.MIN : Int := 2000

/-- `device_const.ColorTempRange.MAX`. -/
def ColorTempRange.MAX : Int := 9000

/-- The command `Light.set_brightness` constructs for an in-range value
and hands to `send_command`. -/
def brightnessCommand (brightness : Int) : DeviceCommand :=
  { capability := CAP_BRIGHTNESS, name := "level",
    arguments := some [("value", Json.num brightness)] }

/-- The command `Light.set_rgb_color` constructs and hands to
`send_command`; its value is the r/g/b dict of `ColorState.to_dict`. -/
def colorCommand (red green blue : Int) : DeviceCommand :=
  { capability := CAP_COLOR, name := "color",
    arguments := some [("value",
      Json.obj [("r", Json.num red), ("g", Json.num green), ("b", Json.num blue)])] }

/-- Embedding of `BaseDevice.send_command` (devices/device.py line 63):
the body reads `self.api`, but `__init__` sets only `self._api` and the
class defines no `api` attribute or property, so the attribute lookup
raises `AttributeError` before the API client is ever invoked.  The
success value would be the list of commands dispatched to the client;
no path reaches a dispatch. -/
def send_command (_command : DeviceCommand) : Except PyError (List DeviceCommand) :=
  .error (.attributeError "api")

/-- Embedding of `Light.set_brightness`: validate the 0-100 range (raising
`ValueError` before anything else) and otherwise hand exactly one
Brightness command to `send_command`, which raises `AttributeError`
without dispatching. -/
def set_brightness (brightness : Int) : Except PyError (List DeviceCommand) :=
  if ¬ (BrightnessRange.MIN ≤ brightness ∧ brightness ≤ BrightnessRange.MAX) then
    .error (.valueError "Brightness must be between 0 and 100")
  else
    send_command (brightnessCommand brightness)

/-- Embedding of `Light.set_color_temp`: validate the fixed 2000-9000 K
range (raising `ValueError`); the in-range branch references the
nonexistent enum member `DeviceCapability.COLOR_TEMP` and therefore
raises `AttributeError` while constructing its command, dispatching
nothing. -/
def set_color_temp (temp : Int) : Except PyError (List DeviceCommand) :=
  if ¬ (ColorTempRange.MIN ≤ temp ∧ temp ≤ ColorTempRange.MAX) then
    .error (.valueError "Color temperature must be between 2000K and 9000K")
  else
    .error (.attributeError "COLOR_TEMP")

/-- Embedding of `Light.set_rgb_color`: no range check at all; it
constructs the Color command for any r/g/b and hands it to
`send_command`, which raises `AttributeError` without dispatching. -/
def set_rgb_color (red green blue : Int) : Except PyError (List DeviceCommand) :=
  send_command (colorCommand red green blue)

/-- Claim C5 counterexample: the in-range call `set_brightness 50` issues
no Command dispatch at all (it raises `AttributeError` inside
`send_command`, where `self.api` is undefined), refuting the claimed
single Brightness dispatch; and the out-of-range `set_rgb_color 300 0 0`
raises that same `AttributeError`, not a validation error, so the color
setter performs no bounds validation before dispatch either. -/
theorem set_brightness_in_range_no_dispatch :
    set_brightness 50 = .error (.attributeError "api") ∧
    (∀ cmds, set_brightness 50 ≠ .ok cmds) ∧
    set_rgb_color 300 0 0 = .error (.attributeError "api") ∧
    ∀ msg, set_rgb_color 300 0 0 ≠ .error (.valueError msg) := by
  refine ⟨rfl, ?_, rfl, ?_⟩
  · intro cmds h
    simp [set_brightness, send_command, BrightnessRange.MIN, BrightnessRange.MAX] at h
  · intro msg h
    simp [set_rgb_color, send_command] at h

/-- Claim C5 (amended): `set_brightness` validates the 0-100 range and
`set_color_temp` validates the fixed 2000-9000 K range declared in
`device_const` (not a device-declared range), each raising `ValueError`
(not `ValidationError`) before anything else when out of range;
`set_rgb_color` performs no range validation; and no setter ever issues
a network dispatch: in range, `set_color_temp` raises `AttributeError`
on the missing enum member COLOR_TEMP, while `set_brightness` and
`set_rgb_color` construct their command (for 50 that command carries
capability st.Brightness, name level and arguments value 50) but raise
`AttributeError` inside `send_command`, whose `self.api` is never
assigned. -/
theorem light_setters_behavior :
    (∀ b : Int, ¬ (0 ≤ b ∧ b ≤ 100) →
      set_brightness b = .error (.valueError "Brightness must be between 0 and 100")) ∧
    (∀ b : Int, 0 ≤ b ∧ b ≤ 100 →
      set_brightness b = send_command (brightnessCommand b) ∧
        set_brightness b = .error (.attributeError "api")) ∧
    (∀ t : Int, ¬ (2000 ≤ t ∧ t ≤ 9000) →
      set_color_temp t =
        .error (.valueError "Color temperature must be between 2000K and 9000K")) ∧
    (∀ t : Int, 2000 ≤ t ∧ t ≤ 9000 →
      set_color_temp t = .error (.attributeError "COLOR_TEMP")) ∧
    (∀ r g b : Int, set_rgb_color r g b = .error (.attributeError "api")) ∧
    ((brightnessCommand 50).capability = "st.Brightness" ∧
     (brightnessCommand 50).name = "level" ∧
     (brightnessCommand 50).arguments = some [("value", Json.num 50)]) := by
  refine ⟨?_, ?_, ?_, ?_, ?_, rfl, rfl, rfl⟩
  · intro b hb
    have h : ¬ (BrightnessRange.MIN ≤ b ∧ b ≤ BrightnessRange.MAX) := by
      simpa [BrightnessRange.MIN, BrightnessRange.MAX] using hb
    simp only [set_brightness, if_pos h]
  · intro b hb
    have h : ¬ ¬ (BrightnessRange.MIN ≤ b ∧ b ≤ BrightnessRange.MAX) :=
      not_not_intro (by simpa [BrightnessRange.MIN, BrightnessRange.MAX] using hb)
    exact ⟨by simp only [set_brightness, if_neg h],
           by simp only [set_brightness, if_neg h, send_command]⟩
  · intro t ht
    have h : ¬ (ColorTempRange.MIN ≤ t ∧ t ≤ ColorTempRange.MAX) := by
      simpa [ColorTempRange.MIN, ColorTempRange.MAX] using ht
    simp only [set_color_temp, if_pos h]
  · intro t ht
    have h : ¬ ¬ (ColorTempRange.MIN ≤ t ∧ t ≤ ColorTempRange.MAX) :=
      not_not_intro (by simpa [ColorTempRange.MIN, ColorTempRange.MAX] using ht)
    simp only [set_color_temp, if_neg h]
  · intro r g b
    rfl

/-- Concrete instances of the amended Light-setter claim:
`set_brightness 150` raises the range error before anything else, and
`set_brightness 50` raises `AttributeError` in `send_command` instead of
dispatching. -/
theorem light_setters_behavior_witness :
    set_brightness 150 = .error (.valueError "Brightness must be between 0 and 100") ∧
    set_brightness 50 = .error (.attributeError "api") :=
  ⟨light_setters_behavior.1 150 (by norm_num),
   (light_setters_behavior.2.1 50 (by norm_num)).2⟩

/-! ### Device factory (src/src/utec_py_LF2b2w/device_manager.py and
devices/device.py)

Discovery records are Python dicts; they are embedded as insertion-ordered
association lists of string keys and a small value type.  `dictSet` has
Python dict-update semantics: replace in place when the key exists,
append otherwise.
-/

/-- Values a discovery record can hold, as far as the factory reads them:
strings, sets of capability tags (kept as lists), and `None`. -/
inductive PyVal where
  | str (s : String)
  | strs (ss : List String)
  | none'
deriving Repr, DecidableEq

/-- Python truthiness for record values. -/
def PyVal.truthy : PyVal → Bool
  | .str s => s != ""
  | .strs ss => !ss.isEmpty
  | .none' => false

/-- A discovery record: an insertion-ordered dict. -/
abbrev Record := List (String × PyVal)

/-- `d.get(k)`. -/
def dictGet (r : Record) (k : String) : Option PyVal :=
  (r.find? (fun p => p.1 == k)).map Prod.snd

/-- `d[k] = v`: replace the value in place if the key exists, otherwise
append the new key at the end (Python dicts preserve insertion order). -/
def dictSet (r : Record) (k : String) (v : PyVal) : Record :=
  if r.any (fun p => p.1 == k) then
    r.map (fun p => if p.1 == k then (k, v) else p)
  else r ++ [(k, v)]

/-- Updating key `k` does not change lookups of a different key
(map branch). -/
theorem find?_keyUpdate (k k' : String) (v : PyVal) (h : (k == k') = false) :
    ∀ r : Record,
      (r.map (fun p => if p.1 == k then (k, v) else p)).find? (fun p => p.1 == k') =
        r.find? (fun p => p.1 == k') := by
  intro r
  induction r with
  | nil => rfl
  | cons hd tl ih =>
    simp only [List.map_cons]
    by_cases hk : (hd.1 == k) = true
    · have hhd : hd.1 = k := by simpa using hk
      have hk' : (hd.1 == k') = false := by simpa [hhd] using h
      rw [if_pos hk, List.find?_cons_of_neg _ (by simp [h]),
        List.find?_cons_of_neg _ (by simp [hk']), ih]
    · have hk2 : (hd.1 == k) = false := by simpa using hk
      rw [if_neg hk]
      by_cases hk' : (hd.1 == k') = true
      · rw [List.find?_cons_of_pos (p := fun q : String × PyVal => q.1 == k') _ hk',
          List.find?_cons_of_pos (p := fun q : String × PyVal => q.1 == k') _ hk']
      · have hk'2 : (hd.1 == k') = false := by simpa using hk'
        rw [List.find?_cons_of_neg _ (by simp [hk'2]),
          List.find?_cons_of_neg _ (by simp [hk'2]), ih]

/-- Appending key `k` does not change lookups of a different key
(append branch). -/
theorem find?_appendKey (k k' : String) (v : PyVal) (h : (k == k') = false) :
    ∀ r : Record,
      (r ++ [(k, v)]).find? (fun p => p.1 == k') = r.find? (fun p => p.1 == k') := by
  intro r
  induction r with
  | nil => simp [List.find?, h]
  | cons hd tl ih =>
    simp only [List.cons_append]
    by_cases hk' : (hd.1 == k') = true
    · rw [List.find?_cons_of_pos (p := fun q : String × PyVal => q.1 == k') _ hk',
          List.find?_cons_of_pos (p := fun q : String × PyVal => q.1 == k') _ hk']
    · have hk'2 : (hd.1 == k') = false := by simpa using hk'
      rw [List.find?_cons_of_neg _ (by simp [hk'2]),
        List.find?_cons_of_neg _ (by simp [hk'2]), ih]

/-- `dictSet` is invisible to `dictGet` at any other key. -/
theorem dictGet_dictSet_ne (r : Record) (k k' : String) (v : PyVal)
    (h : (k == k') = false) :
    dictGet (dictSet r k v) k' = dictGet r k' := by
  unfold dictSet dictGet
  split
  · rw [find?_keyUpdate k k' v h]
  · rw [find?_appendKey k k' v h]

/-- The device variant registered for a handle type
(`DeviceFacilitator._handle_type_mapping`). -/
inductive DeviceClass where
  | lock
  | light
  | switch
deriving Repr, DecidableEq

/-- Association-list lookup, i.e. `dict.get` on the static tables. -/
def assocLookup {α : Type} (m : List (String × α)) (k : String) : Option α :=
  (m.find? (fun p => p.1 == k)).map Prod.snd

/-- `DeviceFacilitator._handle_type_mapping`. -/
def handle_type_mapping : List (String × DeviceClass) :=
  [("utec-lock", .lock),
   ("utec-lock-sensor", .lock),
   ("utec-dimmer", .light),
   ("utec-light-rgbaw-br", .light),
   ("utec-switch", .switch)]

/-- The required-capability table.  `device_manager.py` and
`devices/device_types.py` each define this table with identical keys and
identical capability sets, so one embedding serves both. -/
def HANDLE_TYPE_CAPABILITIES : List (String × List String) :=
  [("utec-lock", ["Lock", "BatteryLevel", "LockUser"]),
   ("utec-lock-sensor", ["Lock", "BatteryLevel", "DoorSensor"]),
   ("utec-dimmer", ["Switch", "Switch Level"]),
   ("utec-light-rgbaw-br", ["Switch", "Brightness", "Color", "ColorTemperature"]),
   ("utec-switch", ["Switch"])]

/-- The exceptions raised on the `create_device` path, carrying the data
interpolated into their messages.  Every one of them is re-raised by the
enclosing `except Exception` of `create_device` wrapped in a
`DeviceError` whose message embeds the original one. -/
inductive DevErr where
  | missingHandleType (device_id : Option PyVal)
  | missingCapabilities (device_id : PyVal) (missing : List String)
  | keyError (key : String)
  | typeError (what : String)
  | invalidHandleType (v : PyVal)
deriving Repr, DecidableEq

/-- The constructed device object: `BaseDevice.__init__` stores the
discovery dict itself plus the fields it extracts from it. -/
structure BaseDevice where
  discovery_data : Record
  device_id : PyVal
  device_name : PyVal
  handle_type : String
  supported_capabilities : List String
deriving Repr, DecidableEq

/-- Embedding of `BaseDevice.__init__`: index (not `.get`) the keys
`id`, `name`, `handleType` and `supportedCapabilities`, convert the
handle type to the `HandleType` enum (whose five values are exactly the
keys of the capability table), then run `_validate_capabilities`, which
raises `DeviceError` naming the missing set when the required
capabilities are not a subset of the declared ones.  Python computes the
missing set by set difference; it is modelled as an order-preserving
filter of the required list. -/
def BaseDevice.init (dd : Record) : Except DevErr BaseDevice :=
  match dictGet dd "id" with
  | none => .error (.keyError "id")
  | some idv =>
    match dictGet dd "name" with
    | none => .error (.keyError "name")
    | some namev =>
      match dictGet dd "handleType" with
      | none => .error (.keyError "handleType")
      | some (.str ht) =>
        match assocLookup HANDLE_TYPE_CAPABILITIES ht with
        | none => .error (.invalidHandleType (.str ht))
        | some required =>
          match dictGet dd "supportedCapabilities" with
          | none => .error (.keyError "supportedCapabilities")
          | some (.strs caps) =>
            let missing := required.filter (fun c => !caps.contains c)
            if !missing.isEmpty then .error (.missingCapabilities idv missing)
            else .ok { discovery_data := dd, device_id := idv, device_name := namev,
                       handle_type := ht, supported_capabilities := caps }
          | some _ => .error (.typeError "supportedCapabilities")
      | some htv => .error (.invalidHandleType htv)

/-- Embedding of `DeviceFacilitator.create_device`.  It returns the
factory outcome together with the callers record as it stands after the
call, because the factory writes the key `supported_capabilities` into
the record before constructing the device.  After construction it runs
`_validate_device_capabilities`, which re-checks the same subset
condition against the device. -/
def create_device (discovery_data : Record) :
    Except DevErr (Option (DeviceClass × BaseDevice)) × Record :=
  match dictGet discovery_data "handleType" with
  | none => (.error (.missingHandleType (dictGet discovery_data "id")), discovery_data)
  | some htv =>
    if !htv.truthy then
      (.error (.missingHandleType (dictGet discovery_data "id")), discovery_data)
    else
      match htv with
      | .str ht =>
        match assocLookup handle_type_mapping ht with
        | none => (.ok none, discovery_data)
        | some cls =>
          let capabilities := (assocLookup HANDLE_TYPE_CAPABILITIES ht).getD []
          let dd' := dictSet discovery_data "supported_capabilities" (.strs capabilities)
          match BaseDevice.init dd' with
          | .error e => (.error e, dd')
          | .ok device =>
            let missing :=
              capabilities.filter (fun c => !device.supported_capabilities.contains c)
            if !missing.isEmpty then
              (.error (.missingCapabilities device.device_id missing), dd')
            else (.ok (some (cls, device)), dd')
      | _ => (.error (.typeError "unhashable handleType"), discovery_data)

/-- A successfully constructed device stores the very record it was built
from. -/
theorem BaseDevice.init_retains (dd : Record) (d : BaseDevice)
    (h : BaseDevice.init dd = .ok d) : d.discovery_data = dd := by
  simp only [BaseDevice.init] at h
  repeat' split at h
  any_goals exact Except.noConfusion h
  injection h with h2
  subst h2
  rfl

/-- Claim C7: a discovery record with a present (truthy) handle type that
is registered with no device variant yields no device and no error, and
the record is left untouched. -/
theorem create_device_unregistered (dd : Record) (ht : String)
    (hget : dictGet dd "handleType" = some (.str ht)) (hne : ht ≠ "")
    (hmap : assocLookup handle_type_mapping ht = none) :
    create_device dd = (.ok none, dd) := by
  have htr : (PyVal.str ht).truthy = true := by simp [PyVal.truthy, hne]
  simp [create_device, hget, htr, hmap]

/-- Concrete instance of the unregistered-handle-type behavior. -/
theorem create_device_unregistered_witness :
    create_device
      [("id", .str "d1"), ("name", .str "New Thing"),
       ("handleType", .str "vendor-new-device"),
       ("supportedCapabilities", .strs ["Switch"])] =
    (.ok none,
      [("id", .str "d1"), ("name", .str "New Thing"),
       ("handleType", .str "vendor-new-device"),
       ("supportedCapabilities", .strs ["Switch"])]) :=
  create_device_unregistered _ "vendor-new-device" rfl (by decide) rfl

/-- Claim C6: for a registered handle type, when some required capability
is missing from the declared capabilities, `create_device` fails with the
`DeviceError` naming the missing set (the required capabilities minus the
declared ones). -/
theorem create_device_missing_caps
    (dd : Record) (ht : String) (cls : DeviceClass)
    (idv namev : PyVal) (caps required : List String)
    (hht : dictGet dd "handleType" = some (.str ht)) (hne : ht ≠ "")
    (hcls : assocLookup handle_type_mapping ht = some cls)
    (hreq : assocLookup HANDLE_TYPE_CAPABILITIES ht = some required)
    (hid : dictGet dd "id" = some idv)
    (hname : dictGet dd "name" = some namev)
    (hcaps : dictGet dd "supportedCapabilities" = some (.strs caps))
    (hmiss : required.filter (fun c => !caps.contains c) ≠ []) :
    (create_device dd).1 =
      .error (.missingCapabilities idv (required.filter (fun c => !caps.contains c))) := by
  have htr : (PyVal.str ht).truthy = true := by simp [PyVal.truthy, hne]
  have hid' : dictGet (dictSet dd "supported_capabilities" (.strs required)) "id" =
      some idv := by
    rw [dictGet_dictSet_ne dd _ _ _ (by decide)]; exact hid
  have hname' : dictGet (dictSet dd "supported_capabilities" (.strs required)) "name" =
      some namev := by
    rw [dictGet_dictSet_ne dd _ _ _ (by decide)]; exact hname
  have hht' : dictGet (dictSet dd "supported_capabilities" (.strs required)) "handleType" =
      some (.str ht) := by
    rw [dictGet_dictSet_ne dd _ _ _ (by decide)]; exact hht
  have hcaps' : dictGet (dictSet dd "supported_capabilities" (.strs required))
      "supportedCapabilities" = some (.strs caps) := by
    rw [dictGet_dictSet_ne dd _ _ _ (by decide)]; exact hcaps
  have hne2 : (required.filter (fun c => !caps.contains c)).isEmpty = false := by
    cases hmm : required.filter (fun c => !caps.contains c) with
    | nil => exact absurd hmm hmiss
    | cons a l => simp
  have hcond : (!(required.filter (fun c => !caps.contains c)).isEmpty) = true := by
    rw [hne2]; rfl
  have hinit : BaseDevice.init (dictSet dd "supported_capabilities" (.strs required)) =
      .error (.missingCapabilities idv (required.filter (fun c => !caps.contains c))) := by
    simp only [BaseDevice.init, hid', hname', hht', hreq, hcaps']
    rw [if_pos hcond]
  simp [create_device, hht, htr, hcls, hreq, hinit]

/-- Concrete instance of the missing-capability failure: a record under
handle type utec-lock (which requires Lock, BatteryLevel and LockUser)
declaring only Lock and BatteryLevel fails naming exactly LockUser. -/
theorem create_device_missing_caps_witness :
    (create_device
      [("id", .str "dev1"), ("name", .str "Front Door"),
       ("handleType", .str "utec-lock"),
       ("supportedCapabilities", .strs ["Lock", "BatteryLevel"])]).1 =
      .error (.missingCapabilities (.str "dev1") ["LockUser"]) :=
  create_device_missing_caps _ "utec-lock" .lock (.str "dev1") (.str "Front Door")
    ["Lock", "BatteryLevel"] ["Lock", "BatteryLevel", "LockUser"]
    rfl (by decide) rfl rfl rfl rfl rfl (by decide)

/-- Claim C9 counterexample: `create_device` does not leave the callers
record as it was; on this lock record (which succeeds) the record gains
the key supported_capabilities. -/
theorem create_device_mutates_record :
    (create_device
      [("id", .str "d2"), ("name", .str "Door"),
       ("handleType", .str "utec-lock"),
       ("supportedCapabilities", .strs ["Lock", "BatteryLevel", "LockUser"])]).2 ≠
      [("id", .str "d2"), ("name", .str "Door"),
       ("handleType", .str "utec-lock"),
       ("supportedCapabilities", .strs ["Lock", "BatteryLevel", "LockUser"])] ∧
    (create_device
      [("id", .str "d2"), ("name", .str "Door"),
       ("handleType", .str "utec-lock"),
       ("supportedCapabilities", .strs ["Lock", "BatteryLevel", "LockUser"])]).2 =
      [("id", .str "d2"), ("name", .str "Door"),
       ("handleType", .str "utec-lock"),
       ("supportedCapabilities", .strs ["Lock", "BatteryLevel", "LockUser"]),
       ("supported_capabilities", .strs ["Lock", "BatteryLevel", "LockUser"])] :=
  ⟨by decide, by decide⟩

/-- Claim C9 (amended): the factory leaves the record unchanged when the
handle type is absent, falsy or unregistered, but for a registered handle
type it writes the key supported_capabilities (holding the required
capability set) into the callers record before construction, and a
successfully constructed device retains the record it was built from. -/
theorem create_device_record_mutation :
    (∀ dd : Record, dictGet dd "handleType" = none → (create_device dd).2 = dd) ∧
    (∀ (dd : Record) (htv : PyVal),
      dictGet dd "handleType" = some htv → htv.truthy = false →
      (create_device dd).2 = dd) ∧
    (∀ (dd : Record) (ht : String),
      dictGet dd "handleType" = some (.str ht) → ht ≠ "" →
      assocLookup handle_type_mapping ht = none →
      (create_device dd).2 = dd) ∧
    (∀ (dd : Record) (ht : String) (cls : DeviceClass),
      dictGet dd "handleType" = some (.str ht) → ht ≠ "" →
      assocLookup handle_type_mapping ht = some cls →
      (create_device dd).2 =
        dictSet dd "supported_capabilities"
          (.strs ((assocLookup HANDLE_TYPE_CAPABILITIES ht).getD []))) ∧
    (∀ (dd : Record) (d : BaseDevice),
      BaseDevice.init dd = .ok d → d.discovery_data = dd) := by
  refine ⟨?_, ?_, ?_, ?_, fun dd d h => BaseDevice.init_retains dd d h⟩
  · intro dd h
    simp [create_device, h]
  · intro dd htv h htr
    simp [create_device, h, htr]
  · intro dd ht hget hne hmap
    have htr : (PyVal.str ht).truthy = true := by simp [PyVal.truthy, hne]
    simp [create_device, hget, htr, hmap]
  · intro dd ht cls hget hne hcls
    have htr : (PyVal.str ht).truthy = true := by simp [PyVal.truthy, hne]
    rcases hinit : BaseDevice.init
        (dictSet dd "supported_capabilities"
          (.strs ((assocLookup HANDLE_TYPE_CAPABILITIES ht).getD []))) with e | device
    · simp [create_device, hget, htr, hcls, hinit]
    · simp [create_device, hget, htr, hcls, hinit]
      split <;> rfl

/-- Concrete instance of the record mutation: on a full lock record the
post-call record is the original with supported_capabilities appended. -/
theorem create_device_record_mutation_witness :
    (create_device
      [("id", .str "d3"), ("name", .str "Back Door"),
       ("handleType", .str "utec-lock"),
       ("supportedCapabilities", .strs ["Lock", "BatteryLevel", "LockUser"])]).2 =
      [("id", .str "d3"), ("name", .str "Back Door"),
       ("handleType", .str "utec-lock"),
       ("supportedCapabilities", .strs ["Lock", "BatteryLevel", "LockUser"]),
       ("supported_capabilities", .strs ["Lock", "BatteryLevel", "LockUser"])] :=
  (create_device_record_mutation.2.2.2.1
      [("id", .str "d3"), ("name", .str "Back Door"),
       ("handleType", .str "utec-lock"),
       ("supportedCapabilities", .strs ["Lock", "BatteryLevel", "LockUser"])]
      "utec-lock" .lock rfl (by decide) rfl).trans (by decide)

end UtecPy
